import Mathlib

/-!
Shallow embedding of the crawl-orchestration pipeline of `src/scraper.js`
(repository kelvinforteta/webscraper).

The scraper drives a headless browser and a SQLite table; both are external
effects.  The embedding makes every effect an explicit value supplied by an
environment:

* the SQLite `articles` table (`initDb`, lines 17-36) becomes a list of
  `SeenRec` threaded through the run; `INSERT OR IGNORE` under the `UNIQUE`
  column constraint becomes `dbInsert`, the retention `DELETE` becomes `sweep`;
* each DOM/network interaction of one article (`scrapeWebsites`
  lines 100-192) is summarised by an `ArticleEnv`: whether opening the page or
  navigating to it rejects, and the strings the field-extraction chains
  (lines 126-168) finally produce;
* each site iteration (lines 50-214) is summarised by a `SiteEnv`: whether the
  pre-`try` session setup (lines 51-53), the listing navigation (line 57) or
  the `$$eval` discovery (lines 60-65) rejects, plus the discovered
  `{url, text}` anchors and the per-article environments;
* `safeGoto` (lines 228-238), the field-strategy cascade
  (`getElementText`/`getElementAttr` + the `||` chains) and the image pipeline
  (lines 143-153 and `validateImageUrl`, lines 290-299) are modelled as
  standalone functions over the same kind of explicit environments.

Timestamps are integers (seconds since epoch); all rows inserted during a run
carry the run's `now`, matching SQLite `datetime('now')`.
-/

namespace WebScraper

/-- One row of the `articles` table created by `initDb` (lines 23-29):
`articleUrl TEXT UNIQUE`, `createdAt DATETIME` (seconds since epoch here). -/
structure SeenRec where
  articleUrl : String
  createdAt : Int
  deriving Repr, DecidableEq

/-- The `articles` table contents. -/
abbrev Db := List SeenRec

/-- `SELECT 1 FROM articles WHERE articleUrl = ?` (lines 77-80). -/
def dbHas (db : Db) (u : String) : Bool :=
  db.any (fun r => r.articleUrl == u)

/-- `INSERT OR IGNORE INTO articles (articleUrl, createdAt) VALUES (?, datetime('now'))`
(lines 175-178): under the `UNIQUE` constraint the insert is dropped when the
URL is already present. -/
def dbInsert (now : Int) (db : Db) (u : String) : Db :=
  if dbHas db u then db else db ++ [⟨u, now⟩]

/-- Seven days, in seconds — the retention window of the `DELETE` at lines 32-35. -/
def retentionSecs : Int := 7 * 24 * 60 * 60

/-- `datetime('now', '-7 days')`. -/
def sweepCutoff (now : Int) : Int := now - retentionSecs

/-- `DELETE FROM articles WHERE createdAt <= datetime('now', '-7 days')`
(lines 32-35): a row survives exactly when `createdAt` is after the cutoff. -/
def sweep (now : Int) (db : Db) : Db :=
  db.filter (fun r => decide (sweepCutoff now < r.createdAt))

/-- Number of rows holding a given URL. -/
def urlCount (db : Db) (u : String) : Nat :=
  db.countP (fun r => r.articleUrl == u)

/-- Resilient navigation, `safeGoto` (lines 228-238).  `att i` is the outcome of
the `page.goto` call on attempt `i` (`.error m` = the promise rejects with
message `m`).  The source loop runs `i = 0, 1, 2`, returns on the first
success, and re-throws the error of attempt `2`. -/
def safeGoto (att : Nat → Except String Unit) : Except String Unit :=
  match att 0 with
  | .ok _ => .ok ()
  | .error _ =>
    match att 1 with
    | .ok _ => .ok ()
    | .error _ => att 2

/-- One field-extraction strategy: a CSS selector plus the outcome the page
yields for it (`.error` = the `$eval` promise rejects, e.g. no match;
`.ok v` = the trimmed text/attribute value). -/
structure Strategy where
  selector : String
  outcome : Except String String

/-- Running one strategy, after `getElementText` / `getElementAttr`
(lines 258-274): a falsy selector short-circuits to `""` and the
`try { ... } catch { return "" }` turns every failure into `""`. -/
def runStrategy (s : Strategy) : String :=
  if s.selector = "" then ""
  else
    match s.outcome with
    | .ok v => v
    | .error _ => ""

/-- The field-fallback cascade: the source chains strategies with JavaScript
`||` (e.g. lines 129-132, 143-147, 155-159), whose string semantics is
"first non-empty result, else the empty string". -/
def resolve (ss : List Strategy) : String :=
  match ss with
  | [] => ""
  | s :: rest =>
    let v := runStrategy s
    if v = "" then resolve rest else v

/-- `validateImageUrl` (lines 290-299): empty input stays empty; otherwise a
`HEAD` fetch is consulted (`headCheck u = .ok b` means the fetch resolved with
`res.ok = b`, `.error` means the fetch itself threw), and only a confirmed
reachable URL is kept. -/
def validateImageUrl (headCheck : String → Except String Bool) (url : String) : String :=
  if url = "" then ""
  else
    match headCheck url with
    | .ok true => url
    | .ok false => ""
    | .error _ => ""

/-- JavaScript `String.prototype.startsWith`, expressed over the character
data so that concrete instances evaluate inside the kernel. -/
def strStartsWith (s p : String) : Bool := p.data.isPrefixOf s.data

/-- Lines 149-152: a non-empty raw image URL that does not start with `"http"`
is resolved against the listing URL's origin via `new URL(raw, base.origin)`,
modelled by the environment's resolver `resolveUrl origin raw`. -/
def absolutizeImageUrl (resolveUrl : String → String → String)
    (origin raw : String) : String :=
  if raw ≠ "" ∧ strStartsWith raw "http" = false then resolveUrl origin raw else raw

/-- Lines 143-153: origin-resolution followed by the reachability check that
produces `article.imageUrl`. -/
def articleImageUrl (resolveUrl : String → String → String)
    (headCheck : String → Except String Bool) (origin raw : String) : String :=
  validateImageUrl headCheck (absolutizeImageUrl resolveUrl origin raw)

/-- An accepted output record (lines 121-168). -/
structure ArticleRecord where
  articleUrl : String
  channel : String
  headline : String
  publishDate : String
  author : String
  publisher : String
  imageUrl : String
  imageAlt : String
  content : String
  deriving Repr, DecidableEq

/-- JavaScript `a || d` for an optional string configuration field:
`undefined` and `""` are falsy (line 123, `site.channel || "general"`). -/
def jsOrString (a : Option String) (d : String) : String :=
  match a with
  | some s => if s = "" then d else s
  | none => d

/-- A site descriptor (input, §3 of the spec).  The nested selector
configuration `contentHtmlTags` only feeds the field-extraction chains, whose
resolved outcomes the environment supplies directly, so it is not repeated
here. -/
structure Site where
  headlineUrl : String
  urlHtmlTag : String
  headlineCount : Nat
  channel : Option String
  webhook : Option String

/-- A discovered `{url, text}` anchor (lines 60-65). -/
structure HeadlineCand where
  url : String
  text : String
  deriving Repr, DecidableEq

/-- Environment of one article iteration (lines 103-191).
`openFails` — `articleContext.newPage()` / `rotateHeaders` (lines 106-107)
rejects after the context of line 105 was created; `navFails` — the
`safeGoto` of line 109 rejects after all retries (representative of any
throw inside the `try` before the close calls of lines 185-186); the string
fields are the values the extraction chains of lines 126-168 resolve to. -/
structure ArticleEnv where
  openFails : Option String
  navFails : Option String
  headline : String
  publishDate : String
  author : String
  publisher : String
  imageUrl : String
  imageAlt : String
  content : String

/-- Outcome of one article iteration: the accepted record (if any), the table
afterwards, and whether the isolated session (article page + context) was
closed by the code path taken. -/
structure ProcOut where
  rec? : Option ArticleRecord
  db : Db
  closed : Bool

/-- One iteration of the article loop (lines 103-191).  An exception is caught
by the `catch` of line 189, which skips the `close()` calls of lines 185-186
because they sit inside the `try` with no `finally`.  On the no-throw path the
record is built, accepted only when both `headline` and `content` are truthy
(line 171), the URL is persisted on acceptance (lines 175-178), and the
session is closed (lines 185-186). -/
def processArticle (now : Int) (site : Site) (ae : ArticleEnv)
    (c : HeadlineCand) (db : Db) : ProcOut :=
  match ae.openFails with
  | some _ => ⟨none, db, false⟩
  | none =>
    match ae.navFails with
    | some _ => ⟨none, db, false⟩
    | none =>
      let article : ArticleRecord :=
        { articleUrl := c.url
          channel := jsOrString site.channel "general"
          headline := ae.headline
          publishDate := ae.publishDate
          author := ae.author
          publisher := ae.publisher
          imageUrl := ae.imageUrl
          imageAlt := ae.imageAlt
          content := ae.content }
      if article.headline ≠ "" ∧ article.content ≠ "" then
        ⟨some article, dbInsert now db article.articleUrl, true⟩
      else
        ⟨none, db, true⟩

/-- Environment of one site iteration (lines 50-214).
`setupFails` — `createBrowserContext`/`newPage`/`rotateHeaders`
(lines 51-53, before the `try`) rejects; `navFails` — the listing `safeGoto`
(line 57) rejects; `discoverFails` — the `$$eval` of line 60 rejects;
`discovered` — the anchors it returns otherwise; `article` — the article
environment per candidate URL. -/
structure SiteEnv where
  setupFails : Option String
  navFails : Option String
  discoverFails : Option String
  discovered : List HeadlineCand
  article : String → ArticleEnv

/-- The article loop (lines 100-192): iterate the remaining candidates,
breaking at the top of an iteration once `contentData.length >= maxNeeded`
(line 101).  `acc` is `contentData`, `att` records the candidates actually
attempted (the log of line 104). -/
def extractGo (now : Int) (site : Site) (env : SiteEnv) (k : Nat) :
    Db → List ArticleRecord → List String → List HeadlineCand →
    List ArticleRecord × Db × List String
  | db, acc, att, [] => (acc, db, att)
  | db, acc, att, c :: rest =>
    if k ≤ acc.length then (acc, db, att)
    else
      let p := processArticle now site (env.article c.url) c db
      match p.rec? with
      | some r => extractGo now site env k p.db (acc ++ [r]) (att ++ [c.url]) rest
      | none => extractGo now site env k p.db acc (att ++ [c.url]) rest

/-- A per-site result (lines 86-90, 196, 198, 212).  The source also spreads
the descriptor's own fields into the object; only the three fields the claims
speak about are modelled.  `error = none` models the `error` key being
absent. -/
structure SiteResult where
  contentData : List ArticleRecord
  headlineCount : Nat
  error : Option String
  deriving Repr, DecidableEq

/-- `maxNeeded` (lines 67-70): `site.headlineCount && site.headlineCount > 0
? site.headlineCount : headlines.length`. -/
def maxNeededOf (site : Site) (env : SiteEnv) : Nat :=
  if 0 < site.headlineCount then site.headlineCount else env.discovered.length

/-- `newCandidates` (lines 72-82): the discovered anchors are truncated to
`maxNeeded` first (line 72), and only then is each survivor checked against
the `articles` table (lines 75-82). -/
def newCandidatesOf (db : Db) (site : Site) (env : SiteEnv) : List HeadlineCand :=
  (env.discovered.take (maxNeededOf site env)).filter (fun h => !(dbHas db h.url))

/-- One site iteration after session setup — the `try`/`catch` body of
lines 55-214.  Without a throw: discovery, truncation to `maxNeeded`
(lines 67-72), the seen-URL pre-check (lines 75-82), the early return when
nothing is new (lines 84-93), the article loop, and result packaging
(lines 194-207; both branches carry `headlineCount = contentData.length` and
no `error` key).  A throw from navigation or discovery reaches the `catch` of
lines 210-214.  Webhook delivery (lines 200-206) is fire-and-forget with its
own `.catch` and does not influence the result, so it is not modelled.
Returns (result, table afterwards, attempted article URLs). -/
def siteStep (now : Int) (db : Db) (site : Site) (env : SiteEnv) :
    SiteResult × Db × List String :=
  match env.navFails with
  | some m => (⟨[], 0, some m⟩, db, [])
  | none =>
    match env.discoverFails with
    | some m => (⟨[], 0, some m⟩, db, [])
    | none =>
      if (newCandidatesOf db site env).isEmpty then
        (⟨[], 0, none⟩, db, [])
      else
        let out := extractGo now site env (maxNeededOf site env) db [] []
          (newCandidatesOf db site env)
        (⟨out.1, out.1.length, none⟩, out.2.1, out.2.2)

/-- The site loop of `scrapeWebsites` (lines 50-215).  The session setup of
lines 51-53 happens before the `try`, so a rejection there propagates out of
the whole function (the `results` gathered so far are lost with the rejected
promise). -/
def runSites (now : Int) : Db → List (Site × SiteEnv) →
    Except String (List SiteResult × Db)
  | db, [] => .ok ([], db)
  | db, (site, env) :: rest =>
    match env.setupFails with
    | some m => .error m
    | none =>
      let out := siteStep now db site env
      match runSites now out.2.1 rest with
      | .ok (rs, dbF) => .ok (out.1 :: rs, dbF)
      | .error m => .error m

/-- `scrapeWebsites` (lines 39-219): `initDb` — which runs the retention
sweep — executes first (line 40), then the sites are processed in order
against the swept table. -/
def scrapeWebsites (now : Int) (db : Db) (input : List (Site × SiteEnv)) :
    Except String (List SiteResult × Db) :=
  runSites now (sweep now db) input

/-- The candidate list the article loop actually receives for a positive
requested count: the discovered anchors truncated to the requested count
first, the seen ones dropped second (lines 72-82). -/
def truncatedUnseen (db : Db) (site : Site) (env : SiteEnv) : List HeadlineCand :=
  (env.discovered.take site.headlineCount).filter (fun h => !(dbHas db h.url))

/-- Per-site error isolation, phrased pointwise: a navigation or discovery
throw is recorded in that site's result (empty data, zero count, the thrown
message as `error`), and a site without such a throw carries no `error` key. -/
def siteIsolated (p : Site × SiteEnv) (r : SiteResult) : Prop :=
  (∀ m, p.2.navFails = some m →
    r.contentData = [] ∧ r.headlineCount = 0 ∧ r.error = some m) ∧
  (p.2.navFails = none → ∀ m, p.2.discoverFails = some m →
    r.contentData = [] ∧ r.headlineCount = 0 ∧ r.error = some m) ∧
  (p.2.navFails = none → p.2.discoverFails = none → r.error = none)

/-- An article environment where every step succeeds and both gate fields are
non-empty. -/
def goodAE : ArticleEnv :=
  ⟨none, none, "Fresh headline", "", "", "pub.example", "", "", "Body text"⟩

/-- A descriptor requesting one headline. -/
def c1Site : Site := ⟨"https://news.example/list", "a.headline", 1, none, none⟩

/-- A listing that discovers two anchors; every article extracts cleanly. -/
def c1Env : SiteEnv :=
  ⟨none, none, none,
   [⟨"https://news.example/a", "A"⟩, ⟨"https://news.example/b", "B"⟩],
   fun _ => goodAE⟩

/-- A table that has already seen the first discovered URL (recently). -/
def c1Db : Db := [⟨"https://news.example/a", 0⟩]

/-- A benign descriptor used by several concrete checks. -/
def wSite : Site := ⟨"https://w.example/list", "a", 2, none, none⟩

/-- A site whose listing discovers nothing and throws nowhere. -/
def wEnvOk : SiteEnv := ⟨none, none, none, [], fun _ => goodAE⟩

/-- A site whose listing navigation rejects (inside the `try`). -/
def wEnvNav : SiteEnv :=
  ⟨none, some "net::ERR_CONNECTION_RESET", none, [], fun _ => goodAE⟩

/-- A site whose session setup (lines 51-53, before the `try`) rejects. -/
def wEnvSetup : SiteEnv := ⟨some "Target closed", none, none, [], fun _ => goodAE⟩

/-- Three sites, of which the middle one throws during listing navigation. -/
def wInput : List (Site × SiteEnv) :=
  [(wSite, wEnvOk), (wSite, wEnvNav), (wSite, wEnvOk)]

/-- Three sites, of which the middle one rejects during session setup. -/
def badInput : List (Site × SiteEnv) :=
  [(wSite, wEnvOk), (wSite, wEnvSetup), (wSite, wEnvOk)]

/-- An article whose navigation rejects after its page was opened. -/
def c4AE : ArticleEnv :=
  ⟨none, some "net::ERR_TIMED_OUT at https://news.example/b", "", "", "", "", "", "", ""⟩

/-- A navigation environment in which every attempt rejects. -/
def attBad : Nat → Except String Unit :=
  fun _ => .error "Navigation timeout of 60000 ms exceeded"

/-- A concrete URL resolver standing for `new URL(raw, origin).href`. -/
def demoResolve : String → String → String := fun origin raw => origin ++ raw

/-- A concrete `HEAD`-check environment: exactly one URL is reachable. -/
def demoHead : String → Except String Bool :=
  fun u => .ok (u == "https://s.example/img.png")

/-- A one-row table used by the concrete dedup check. -/
def c8Db : Db := [⟨"https://a.example", 0⟩]

/-- A URL not present in `c8Db`. -/
def c8Url : String := "https://b.example"

/-- A descriptor with a non-empty channel label. -/
def c10Site : Site := ⟨"https://w.example/list", "a", 1, some "sports", none⟩

/-- The record `processArticle` builds for `c10Site` and `goodAE` at
`https://w.example/x`. -/
def c10Rec : ArticleRecord :=
  ⟨"https://w.example/x", "sports", "Fresh headline", "", "", "pub.example", "", "",
   "Body text"⟩

/-! ## Basic facts about the seen-article table -/

theorem dbHas_iff (db : Db) (u : String) :
    dbHas db u = true ↔ ∃ r ∈ db, r.articleUrl = u := by
  simp [dbHas, List.any_eq_true]

theorem dbHas_insert (now : Int) (db : Db) (u : String) :
    dbHas (dbInsert now db u) u = true := by
  by_cases h : dbHas db u
  · simp [dbInsert, h]
  · rw [dbInsert, if_neg h]
    simp [dbHas]

theorem urlCount_eq_zero (db : Db) (u : String) (h : dbHas db u = false) :
    urlCount db u = 0 := by
  rw [urlCount, List.countP_eq_zero]
  intro r hr
  simp only [beq_iff_eq]
  intro hru
  have hh : dbHas db u = true := (dbHas_iff db u).mpr ⟨r, hr, hru⟩
  rw [h] at hh
  exact Bool.noConfusion hh

theorem urlCount_eq_count_map (db : Db) (u : String) :
    urlCount db u = (db.map SeenRec.articleUrl).count u := by
  simp only [urlCount, List.count, List.countP_map]
  rfl

theorem urlCount_le_one (db : Db) (u : String)
    (h : (db.map SeenRec.articleUrl).Nodup) : urlCount db u ≤ 1 := by
  rw [urlCount_eq_count_map]
  exact List.nodup_iff_count_le_one.mp h u

theorem urlCount_pos (db : Db) (u : String) (h : dbHas db u = true) :
    0 < urlCount db u := by
  rw [urlCount, List.countP_pos_iff]
  rcases (dbHas_iff db u).mp h with ⟨r, hr, hru⟩
  exact ⟨r, hr, by simp [hru]⟩

theorem sweep_mem (now : Int) (db : Db) (r : SeenRec) :
    r ∈ sweep now db ↔ r ∈ db ∧ sweepCutoff now < r.createdAt := by
  simp [sweep, List.mem_filter]

theorem sweep_idem (now : Int) (db : Db) :
    sweep now (sweep now db) = sweep now db := by
  simp [sweep, List.filter_filter]

/-! ## Step equations for the article processor -/

theorem processArticle_open (now : Int) (site : Site) (ae : ArticleEnv)
    (c : HeadlineCand) (db : Db) (m : String) (h : ae.openFails = some m) :
    processArticle now site ae c db = ⟨none, db, false⟩ := by
  unfold processArticle
  rw [h]

theorem processArticle_nav (now : Int) (site : Site) (ae : ArticleEnv)
    (c : HeadlineCand) (db : Db) (m : String) (ho : ae.openFails = none)
    (h : ae.navFails = some m) :
    processArticle now site ae c db = ⟨none, db, false⟩ := by
  unfold processArticle
  rw [ho, h]

theorem processArticle_run (now : Int) (site : Site) (ae : ArticleEnv)
    (c : HeadlineCand) (db : Db) (ho : ae.openFails = none)
    (hn : ae.navFails = none) :
    processArticle now site ae c db =
      if ae.headline ≠ "" ∧ ae.content ≠ "" then
        ⟨some ⟨c.url, jsOrString site.channel "general", ae.headline, ae.publishDate,
           ae.author, ae.publisher, ae.imageUrl, ae.imageAlt, ae.content⟩,
         dbInsert now db c.url, true⟩
      else ⟨none, db, true⟩ := by
  unfold processArticle
  rw [ho, hn]

theorem processArticle_some (now : Int) (site : Site) (ae : ArticleEnv)
    (c : HeadlineCand) (db : Db) (r : ArticleRecord)
    (h : (processArticle now site ae c db).rec? = some r) :
    r.articleUrl = c.url ∧ r.channel = jsOrString site.channel "general" ∧
    r.headline = ae.headline ∧ r.content = ae.content ∧
    ae.headline ≠ "" ∧ ae.content ≠ "" ∧
    (processArticle now site ae c db).db = dbInsert now db c.url := by
  cases ho : ae.openFails with
  | some m => rw [processArticle_open now site ae c db m ho] at h; exact absurd h (by simp)
  | none =>
    cases hn : ae.navFails with
    | some m => rw [processArticle_nav now site ae c db m ho hn] at h; exact absurd h (by simp)
    | none =>
      rw [processArticle_run now site ae c db ho hn] at h ⊢
      by_cases hac : ae.headline ≠ "" ∧ ae.content ≠ ""
      · rw [if_pos hac] at h ⊢
        simp only [Option.some.injEq] at h
        subst h
        exact ⟨rfl, rfl, rfl, rfl, hac.1, hac.2, rfl⟩
      · rw [if_neg hac] at h
        exact absurd h (by simp)

theorem processArticle_none_db (now : Int) (site : Site) (ae : ArticleEnv)
    (c : HeadlineCand) (db : Db)
    (h : (processArticle now site ae c db).rec? = none) :
    (processArticle now site ae c db).db = db := by
  cases ho : ae.openFails with
  | some m => rw [processArticle_open now site ae c db m ho]
  | none =>
    cases hn : ae.navFails with
    | some m => rw [processArticle_nav now site ae c db m ho hn]
    | none =>
      rw [processArticle_run now site ae c db ho hn] at h ⊢
      by_cases hac : ae.headline ≠ "" ∧ ae.content ≠ ""
      · rw [if_pos hac] at h; exact absurd h (by simp)
      · rw [if_neg hac]

/-! ## Step equations for the site orchestrator -/

theorem siteStep_nav (now : Int) (db : Db) (site : Site) (env : SiteEnv)
    (m : String) (h : env.navFails = some m) :
    siteStep now db site env = (⟨[], 0, some m⟩, db, []) := by
  unfold siteStep
  rw [h]

theorem siteStep_disc (now : Int) (db : Db) (site : Site) (env : SiteEnv)
    (m : String) (hn : env.navFails = none) (h : env.discoverFails = some m) :
    siteStep now db site env = (⟨[], 0, some m⟩, db, []) := by
  unfold siteStep
  rw [hn, h]

theorem siteStep_run (now : Int) (db : Db) (site : Site) (env : SiteEnv)
    (hn : env.navFails = none) (hd : env.discoverFails = none) :
    siteStep now db site env =
      if (newCandidatesOf db site env).isEmpty then (⟨[], 0, none⟩, db, [])
      else
        (⟨(extractGo now site env (maxNeededOf site env) db [] []
             (newCandidatesOf db site env)).1,
          (extractGo now site env (maxNeededOf site env) db [] []
             (newCandidatesOf db site env)).1.length, none⟩,
         (extractGo now site env (maxNeededOf site env) db [] []
             (newCandidatesOf db site env)).2.1,
         (extractGo now site env (maxNeededOf site env) db [] []
             (newCandidatesOf db site env)).2.2) := by
  unfold siteStep
  rw [hn, hd]

theorem runSites_cons_setup (now : Int) (db : Db) (site : Site) (env : SiteEnv)
    (rest : List (Site × SiteEnv)) (m : String) (h : env.setupFails = some m) :
    runSites now db ((site, env) :: rest) = .error m := by
  unfold runSites
  rw [h]

theorem runSites_cons (now : Int) (db : Db) (site : Site) (env : SiteEnv)
    (rest : List (Site × SiteEnv)) (h : env.setupFails = none) :
    runSites now db ((site, env) :: rest) =
      match runSites now (siteStep now db site env).2.1 rest with
      | .ok (rs, dbF) => .ok ((siteStep now db site env).1 :: rs, dbF)
      | .error m => .error m := by
  conv_lhs => unfold runSites
  rw [h]

theorem extractGo_cons (now : Int) (site : Site) (env : SiteEnv) (k : Nat)
    (db : Db) (acc : List ArticleRecord) (att : List String)
    (c : HeadlineCand) (rest : List HeadlineCand) :
    extractGo now site env k db acc att (c :: rest) =
      if k ≤ acc.length then (acc, db, att)
      else
        match (processArticle now site (env.article c.url) c db).rec? with
        | some r => extractGo now site env k
            (processArticle now site (env.article c.url) c db).db
            (acc ++ [r]) (att ++ [c.url]) rest
        | none => extractGo now site env k
            (processArticle now site (env.article c.url) c db).db
            acc (att ++ [c.url]) rest := by
  rfl

/-- Invariant of the article loop: starting from an accumulator within the
bound, the loop (a) never exceeds the bound, (b) only adds records whose URL
comes from the candidate list and whose gate fields are non-empty, and
(c) attempts exactly a prefix of the candidates, stopping short of the end
only when the bound has been reached. -/
theorem extractGo_spec (now : Int) (site : Site) (env : SiteEnv) (k : Nat)
    (cands : List HeadlineCand) :
    ∀ (db : Db) (acc : List ArticleRecord) (att : List String),
      acc.length ≤ k →
      (extractGo now site env k db acc att cands).1.length ≤ k ∧
      (∀ a ∈ (extractGo now site env k db acc att cands).1,
        a ∈ acc ∨ (a.articleUrl ∈ cands.map HeadlineCand.url ∧
          a.headline ≠ "" ∧ a.content ≠ "")) ∧
      (∃ n, n ≤ cands.length ∧
        (extractGo now site env k db acc att cands).2.2 =
          att ++ (cands.take n).map HeadlineCand.url ∧
        (n < cands.length →
          (extractGo now site env k db acc att cands).1.length = k)) := by
  induction cands with
  | nil =>
    intro db acc att hle
    refine ⟨hle, fun a ha => Or.inl ha, 0, Nat.le_refl 0, by simp [extractGo], ?_⟩
    intro hlt
    exact absurd hlt (by simp)
  | cons c rest ih =>
    intro db acc att hle
    rw [extractGo_cons]
    by_cases hbreak : k ≤ acc.length
    · rw [if_pos hbreak]
      have hk : acc.length = k := Nat.le_antisymm hle hbreak
      exact ⟨hle, fun a ha => Or.inl ha, 0, Nat.zero_le _, by simp, fun _ => hk⟩
    · rw [if_neg hbreak]
      have hlt : acc.length < k := Nat.lt_of_not_le hbreak
      cases hrec : (processArticle now site (env.article c.url) c db).rec? with
      | some r =>
        have hr := processArticle_some now site (env.article c.url) c db r hrec
        obtain ⟨ihlen, ihmem, n, hn, hatt, hfull⟩ :=
          ih (processArticle now site (env.article c.url) c db).db
            (acc ++ [r]) (att ++ [c.url]) (by simp; omega)
        refine ⟨ihlen, ?_, n + 1, by simpa using Nat.succ_le_succ hn, ?_, ?_⟩
        · intro a ha
          rcases ihmem a ha with haa | ⟨hurl, hh, hc⟩
          · rcases List.mem_append.mp haa with haa | haa
            · exact Or.inl haa
            · have har : a = r := by simpa using haa
              subst har
              refine Or.inr ⟨?_, ?_, ?_⟩
              · rw [hr.1]; simp
              · rw [hr.2.2.1]; exact hr.2.2.2.2.1
              · rw [hr.2.2.2.1]; exact hr.2.2.2.2.2.1
          · exact Or.inr ⟨by simp [hurl], hh, hc⟩
        · rw [hatt]
          simp [List.append_assoc]
        · intro hlt'
          exact hfull (by simpa using Nat.lt_of_succ_lt_succ hlt')
      | none =>
        obtain ⟨ihlen, ihmem, n, hn, hatt, hfull⟩ :=
          ih (processArticle now site (env.article c.url) c db).db
            acc (att ++ [c.url]) (Nat.le_of_lt hlt)
        refine ⟨ihlen, ?_, n + 1, by simpa using Nat.succ_le_succ hn, ?_, ?_⟩
        · intro a ha
          rcases ihmem a ha with haa | ⟨hurl, hh, hc⟩
          · exact Or.inl haa
          · exact Or.inr ⟨by simp [hurl], hh, hc⟩
        · rw [hatt]
          simp [List.append_assoc]
        · intro hlt'
          exact hfull (by simpa using Nat.lt_of_succ_lt_succ hlt')

/-- With a positive requested count, the candidate list the loop receives is
exactly "truncate to the requested count, then drop the seen URLs". -/
theorem newCandidatesOf_pos (db : Db) (site : Site) (env : SiteEnv)
    (hk : 0 < site.headlineCount) :
    newCandidatesOf db site env = truncatedUnseen db site env := by
  unfold newCandidatesOf truncatedUnseen maxNeededOf
  rw [if_pos hk]

theorem maxNeededOf_pos (site : Site) (env : SiteEnv)
    (hk : 0 < site.headlineCount) : maxNeededOf site env = site.headlineCount := by
  unfold maxNeededOf
  rw [if_pos hk]

/-- Each single site step satisfies the per-site isolation contract. -/
theorem siteStep_isolated (now : Int) (db : Db) (site : Site) (env : SiteEnv) :
    siteIsolated (site, env) (siteStep now db site env).1 := by
  refine ⟨?_, ?_, ?_⟩
  · intro m hm
    rw [siteStep_nav now db site env m hm]
    exact ⟨rfl, rfl, rfl⟩
  · intro hn m hm
    rw [siteStep_disc now db site env m hn hm]
    exact ⟨rfl, rfl, rfl⟩
  · intro hn hd
    rw [siteStep_run now db site env hn hd]
    split <;> rfl

/-- When no site's session setup rejects, the site loop returns one result per
descriptor, pointwise satisfying the isolation contract. -/
theorem runSites_isolated (now : Int) (input : List (Site × SiteEnv)) :
    ∀ db : Db, (∀ p ∈ input, p.2.setupFails = none) →
      ∃ rs dbF, runSites now db input = .ok (rs, dbF) ∧
        List.Forall₂ siteIsolated input rs := by
  induction input with
  | nil => exact fun db _ => ⟨[], db, rfl, List.Forall₂.nil⟩
  | cons p rest ih =>
    intro db hs
    obtain ⟨site, env⟩ := p
    have hsp : env.setupFails = none := hs _ (List.mem_cons_self _ _)
    have hrest : ∀ q ∈ rest, q.2.setupFails = none :=
      fun q hq => hs q (List.mem_cons_of_mem _ hq)
    obtain ⟨rs, dbF, hrun, hfa⟩ := ih (siteStep now db site env).2.1 hrest
    refine ⟨(siteStep now db site env).1 :: rs, dbF, ?_,
      List.Forall₂.cons (siteStep_isolated now db site env) hfa⟩
    rw [runSites_cons now db site env rest hsp, hrun]

/-! ## Claims -/

/-- Claim C1, counterexample.  The claim says already-seen candidates never
consume slots of the requested count.  Here the descriptor requests 1
headline, the listing discovers two candidates, the first is already in the
store and the second is unseen and extracts cleanly — yet the orchestrator
returns an empty result and attempts nothing, because the source truncates to
the requested count (line 72) before the seen-URL filter (lines 75-82). -/
theorem c1_counterexample :
    dbHas c1Db "https://news.example/b" = false ∧
    (c1Env.article "https://news.example/b").headline ≠ "" ∧
    (c1Env.article "https://news.example/b").content ≠ "" ∧
    (c1Env.article "https://news.example/b").openFails = none ∧
    (c1Env.article "https://news.example/b").navFails = none ∧
    siteStep 0 c1Db c1Site c1Env = (⟨[], 0, none⟩, c1Db, []) :=
  ⟨rfl, by decide, by decide, rfl, rfl, rfl⟩

/-- Claim C1, amended.  For a positive requested count `k`, the orchestrator
first truncates the discovered candidates to `k` and only then drops those
already in the Seen-Article Store (so seen candidates inside the first `k`
do consume slots); extraction then runs over that truncated-and-filtered list
in order — accepted records come only from it, never exceed `k`, and the
attempted candidates form a prefix of it that stops short of its end only
once the number of accepted records has reached `k`. -/
theorem c1_theorem (now : Int) (db : Db) (site : Site) (env : SiteEnv)
    (hn : env.navFails = none) (hd : env.discoverFails = none)
    (hk : 0 < site.headlineCount) :
    (siteStep now db site env).1.error = none ∧
    (siteStep now db site env).1.headlineCount =
      (siteStep now db site env).1.contentData.length ∧
    (siteStep now db site env).1.contentData.length ≤ site.headlineCount ∧
    (∀ a ∈ (siteStep now db site env).1.contentData,
      a.articleUrl ∈ (truncatedUnseen db site env).map HeadlineCand.url ∧
      a.headline ≠ "" ∧ a.content ≠ "") ∧
    (∃ n, n ≤ (truncatedUnseen db site env).length ∧
      (siteStep now db site env).2.2 =
        ((truncatedUnseen db site env).take n).map HeadlineCand.url ∧
      (n < (truncatedUnseen db site env).length →
        (siteStep now db site env).1.contentData.length = site.headlineCount)) := by
  rw [siteStep_run now db site env hn hd, newCandidatesOf_pos db site env hk,
    maxNeededOf_pos site env hk]
  by_cases he : (truncatedUnseen db site env).isEmpty
  · rw [if_pos he]
    have he' : truncatedUnseen db site env = [] := by
      simpa using he
    refine ⟨rfl, rfl, Nat.zero_le _, ?_, 0, Nat.zero_le _, by simp, ?_⟩
    · intro a ha
      exact absurd ha (by simp)
    · intro hlt
      rw [he'] at hlt
      exact absurd hlt (by simp)
  · rw [if_neg he]
    obtain ⟨hlen, hmem, n, hn', hatt, hfull⟩ :=
      extractGo_spec now site env site.headlineCount (truncatedUnseen db site env)
        db [] [] (Nat.zero_le _)
    refine ⟨rfl, rfl, hlen, ?_, n, hn', by simpa using hatt, hfull⟩
    intro a ha
    rcases hmem a ha with h | h
    · exact absurd h (by simp)
    · exact h

/-- Claim C1, witness for the amended theorem at a concrete input. -/
theorem c1_witness :
    (siteStep 0 [] c1Site c1Env).1.contentData.length ≤ c1Site.headlineCount :=
  (c1_theorem 0 [] c1Site c1Env rfl rfl (by decide)).2.2.1

/-- Claim C2, counterexample.  The claim says an exception while processing
one site is always contained and every descriptor still yields a Site
Result.  But the per-site session setup (lines 51-53) runs before the `try`
of line 55: when the middle site of three rejects there, the whole
`scrapeWebsites` call rejects and no Site Results at all are produced — the
other sites are affected and no descriptor yields a result. -/
theorem c2_counterexample :
    scrapeWebsites 0 [] badInput = .error "Target closed" :=
  rfl

/-- Claim C2, amended.  When no site's session setup rejects, every
descriptor yields exactly one Site Result, in order: a site whose listing
navigation or discovery throws gets `contentData = []`, `headlineCount = 0`
and `error` set to the thrown message (non-empty whenever the message is),
and sites without such a throw carry no `error`.  An exception while opening
a site's browsing session (before the `try`) instead propagates and aborts
the whole batch. -/
theorem c2_theorem (now : Int) (db : Db) (input : List (Site × SiteEnv))
    (hs : ∀ p ∈ input, p.2.setupFails = none) :
    ∃ rs dbF, scrapeWebsites now db input = .ok (rs, dbF) ∧
      rs.length = input.length ∧ List.Forall₂ siteIsolated input rs := by
  obtain ⟨rs, dbF, h, hfa⟩ := runSites_isolated now input (sweep now db) hs
  exact ⟨rs, dbF, h, hfa.length_eq.symm, hfa⟩

/-- Claim C2, witness: three sites of which the middle one throws during
listing navigation. -/
theorem c2_witness :
    ∃ rs dbF, scrapeWebsites 0 [] wInput = .ok (rs, dbF) ∧
      rs.length = wInput.length ∧ List.Forall₂ siteIsolated wInput rs :=
  c2_theorem 0 [] wInput (by intro p hp; fin_cases hp <;> rfl)

/-- Claim C3 (confirmed): a record is produced exactly when no exception
occurred and both `headline` and `content` are non-empty (line 171); on
acceptance the record carries the candidate's URL, which is then present in
the Seen-Article Store because the table after the step is exactly the table
with that URL inserted (lines 175-178); on rejection the store is
untouched. -/
theorem c3_theorem (now : Int) (site : Site) (ae : ArticleEnv)
    (c : HeadlineCand) (db : Db) :
    ((processArticle now site ae c db).rec?.isSome ↔
      (ae.openFails = none ∧ ae.navFails = none ∧
       ae.headline ≠ "" ∧ ae.content ≠ "")) ∧
    (∀ r, (processArticle now site ae c db).rec? = some r →
      r.articleUrl = c.url ∧ r.headline = ae.headline ∧ r.content = ae.content ∧
      (processArticle now site ae c db).db = dbInsert now db c.url ∧
      dbHas (processArticle now site ae c db).db c.url = true) ∧
    ((processArticle now site ae c db).rec? = none →
      (processArticle now site ae c db).db = db) := by
  refine ⟨⟨?_, ?_⟩, ?_, ?_⟩
  · intro hsome
    cases ho : ae.openFails with
    | some m => rw [processArticle_open now site ae c db m ho] at hsome; simp at hsome
    | none =>
      cases hn : ae.navFails with
      | some m => rw [processArticle_nav now site ae c db m ho hn] at hsome; simp at hsome
      | none =>
        by_cases hac : ae.headline ≠ "" ∧ ae.content ≠ ""
        · exact ⟨rfl, rfl, hac.1, hac.2⟩

        · rw [processArticle_run now site ae c db ho hn, if_neg hac] at hsome
          simp at hsome
  · rintro ⟨ho, hn, hh, hcn⟩
    rw [processArticle_run now site ae c db ho hn, if_pos ⟨hh, hcn⟩]
    simp
  · intro r hr
    have h := processArticle_some now site ae c db r hr
    refine ⟨h.1, h.2.2.1, h.2.2.2.1, h.2.2.2.2.2.2, ?_⟩
    rw [h.2.2.2.2.2.2]
    exact dbHas_insert now db c.url
  · exact processArticle_none_db now site ae c db

/-- Claim C3, witness: a clean extraction with non-empty gate fields is
accepted. -/
theorem c3_witness :
    (processArticle 0 wSite goodAE ⟨"https://w.example/x", "t"⟩ []).rec?.isSome :=
  ((c3_theorem 0 wSite goodAE ⟨"https://w.example/x", "t"⟩ []).1).mpr
    ⟨rfl, rfl, by decide, by decide⟩

/-- Claim C4 (code bug): when navigation of an article rejects after its
isolated session was opened, the `catch` of line 189 is reached and the
`close()` calls of lines 185-186 — which sit inside the `try`, with no
`finally` — are skipped, so the session is NOT closed when processing of the
candidate finishes, contradicting the spec's "Always close the isolated
session on exit, success or failure". -/
theorem c4_theorem :
    (processArticle 0 c1Site c4AE ⟨"https://news.example/b", "B"⟩ c1Db).closed
      = false ∧
    (processArticle 0 c1Site c4AE ⟨"https://news.example/b", "B"⟩ c1Db).rec?
      = none ∧
    c4AE.openFails = none ∧ c4AE.navFails.isSome = true :=
  ⟨rfl, rfl, rfl, rfl⟩

/-- Claim C5 (confirmed): the field-fallback cascade returns the first
strategy result that is non-empty (each strategy's failure having been
recovered to `""` by `getElementText`/`getElementAttr`), and the empty string
when every strategy fails or yields empty; the two concrete orderings of the
spec evaluate as stated. -/
theorem c5_theorem :
    (∀ ss : List Strategy,
      resolve ss = ((ss.map runStrategy).find? (fun v => v != "")).getD "") ∧
    resolve [⟨"h1", .error "no element"⟩, ⟨"h2", .ok ""⟩, ⟨"h3", .ok "X"⟩] = "X" ∧
    resolve [⟨"h1", .ok "Y"⟩, ⟨"h2", .ok "X"⟩] = "Y" := by
  refine ⟨?_, rfl, rfl⟩
  intro ss
  induction ss with
  | nil => rfl
  | cons s rest ih =>
    simp only [resolve, List.map_cons]
    rw [List.find?_cons]
    by_cases h : runStrategy s = ""
    · have hb : (runStrategy s != "") = false := by simp [h]
      rw [if_pos h, hb, ih]
    · have hb : (runStrategy s != "") = true := by simpa using h
      rw [if_neg h, hb]
      rfl

/-- Claim C6 (confirmed): a non-empty raw image URL that is not absolute
(operationally, does not start with `"http"`, line 149) is resolved against
the listing URL's origin before use; the final `imageUrl` equals the used URL
exactly when the `HEAD` existence check confirms it reachable, and an
unreachable or unverifiable URL yields `""`. -/
theorem c6_theorem (resolveUrl : String → String → String)
    (headCheck : String → Except String Bool) (origin raw : String) :
    (raw ≠ "" → strStartsWith raw "http" = false →
      articleImageUrl resolveUrl headCheck origin raw =
        validateImageUrl headCheck (resolveUrl origin raw)) ∧
    (strStartsWith raw "http" = true →
      articleImageUrl resolveUrl headCheck origin raw =
        validateImageUrl headCheck raw) ∧
    (∀ u, u ≠ "" →
      ((validateImageUrl headCheck u = u ↔ headCheck u = .ok true) ∧
       (headCheck u ≠ .ok true → validateImageUrl headCheck u = ""))) ∧
    validateImageUrl headCheck "" = "" := by
  refine ⟨?_, ?_, ?_, rfl⟩
  · intro h1 h2
    unfold articleImageUrl absolutizeImageUrl
    rw [if_pos ⟨h1, h2⟩]
  · intro h
    unfold articleImageUrl absolutizeImageUrl
    rw [if_neg (by simp [h])]
  · intro u hu
    refine ⟨⟨?_, ?_⟩, ?_⟩
    · intro hv
      unfold validateImageUrl at hv
      rw [if_neg hu] at hv
      cases hh : headCheck u with
      | ok b =>
        cases b with
        | true => rfl
        | false => rw [hh] at hv; exact absurd hv.symm hu
      | error e => rw [hh] at hv; exact absurd hv.symm hu
    · intro hh
      unfold validateImageUrl
      rw [if_neg hu, hh]
    · intro hh
      unfold validateImageUrl
      rw [if_neg hu]
      cases hh2 : headCheck u with
      | ok b =>
        cases b with
        | true => exact absurd hh2 hh
        | false => rfl
      | error e => rfl

/-- Claim C6, witness: a relative path is routed through origin
resolution. -/
theorem c6_witness :
    articleImageUrl demoResolve demoHead "https://s.example" "/img.png" =
      validateImageUrl demoHead (demoResolve "https://s.example" "/img.png") :=
  (c6_theorem demoResolve demoHead "https://s.example" "/img.png").1
    (by decide) (by decide)

/-- Claim C7 (confirmed): `safeGoto` returns as soon as an attempt succeeds,
propagates the third attempt's error after three failures, and never
consults any attempt beyond the first three. -/
theorem c7_theorem (att att' : Nat → Except String Unit) (m0 m1 m2 : String) :
    (att 0 = .ok () → safeGoto att = .ok ()) ∧
    (att 0 = .error m0 → att 1 = .ok () → safeGoto att = .ok ()) ∧
    (att 0 = .error m0 → att 1 = .error m1 → att 2 = .ok () →
      safeGoto att = .ok ()) ∧
    (att 0 = .error m0 → att 1 = .error m1 → att 2 = .error m2 →
      safeGoto att = .error m2) ∧
    ((∀ i, i < 3 → att i = att' i) → safeGoto att = safeGoto att') := by
  refine ⟨?_, ?_, ?_, ?_, ?_⟩
  · intro h0
    unfold safeGoto
    rw [h0]
  · intro h0 h1
    unfold safeGoto
    rw [h0, h1]
  · intro h0 h1 h2
    unfold safeGoto
    rw [h0, h1, h2]
  · intro h0 h1 h2
    unfold safeGoto
    rw [h0, h1, h2]
  · intro h
    unfold safeGoto
    rw [h 0 (by omega), h 1 (by omega), h 2 (by omega)]

/-- Claim C7, witness: all three attempts fail, the last error is
propagated. -/
theorem c7_witness :
    safeGoto attBad = .error "Navigation timeout of 60000 ms exceeded" :=
  (c7_theorem attBad attBad "Navigation timeout of 60000 ms exceeded"
    "Navigation timeout of 60000 ms exceeded"
    "Navigation timeout of 60000 ms exceeded").2.2.2.1 rfl rfl rfl

/-- Claim C8 (confirmed): on a table whose URLs are unique (the `UNIQUE`
column invariant), recording a URL twice leaves exactly one row for it, the
second insert is a no-op (as is any insert of an already-present URL), and no
error is raised — `dbInsert` is total. -/
theorem c8_theorem (db : Db) (u : String) (t1 t2 : Int)
    (hu : (db.map SeenRec.articleUrl).Nodup) :
    urlCount (dbInsert t2 (dbInsert t1 db u) u) u = 1 ∧
    (dbHas db u = true → dbInsert t1 db u = db) ∧
    dbInsert t2 (dbInsert t1 db u) u = dbInsert t1 db u := by
  have hnoop : ∀ (t : Int) (db' : Db), dbHas db' u = true → dbInsert t db' u = db' := by
    intro t db' h
    unfold dbInsert
    rw [if_pos h]
  have h2 : dbInsert t2 (dbInsert t1 db u) u = dbInsert t1 db u :=
    hnoop t2 _ (dbHas_insert t1 db u)
  refine ⟨?_, hnoop t1 db, h2⟩
  rw [h2]
  by_cases h : dbHas db u
  · rw [hnoop t1 db h]
    exact Nat.le_antisymm (urlCount_le_one db u hu) (urlCount_pos db u h)
  · have hfalse : dbHas db u = false := by
      rwa [Bool.not_eq_true] at h
    rw [dbInsert, if_neg h, urlCount, List.countP_append]
    have h0 := urlCount_eq_zero db u hfalse
    rw [urlCount] at h0
    rw [h0]
    simp [List.countP_cons]

/-- Claim C8, witness at a concrete table. -/
theorem c8_witness :
    urlCount (dbInsert 5 (dbInsert 3 c8Db c8Url) c8Url) c8Url = 1 :=
  (c8_theorem c8Db c8Url 3 5 (by decide)).1

/-- Claim C9 (confirmed): after the sweep, a record stamped at or before the
7-day cutoff is absent (in particular any record strictly older than 7 days)
and a record strictly younger is retained; and because `scrapeWebsites` runs
the sweep before any read, a run's outcome is unchanged by records the sweep
removes — running on the swept table is the same as running on the original
table. -/
theorem c9_theorem (now : Int) (db : Db) (r : SeenRec)
    (input : List (Site × SiteEnv)) :
    (r.createdAt ≤ sweepCutoff now → r ∉ sweep now db) ∧
    (r ∈ db → sweepCutoff now < r.createdAt → r ∈ sweep now db) ∧
    scrapeWebsites now db input = scrapeWebsites now (sweep now db) input := by
  refine ⟨?_, ?_, ?_⟩
  · intro hold hmem
    have hk := (sweep_mem now db r).mp hmem
    omega
  · intro hmem hyoung
    exact (sweep_mem now db r).mpr ⟨hmem, hyoung⟩
  · unfold scrapeWebsites
    rw [sweep_idem]

/-- Claim C9, witness: an 11-day-old record is removed. -/
theorem c9_witness :
    (⟨"https://old.example/a", 0⟩ : SeenRec) ∉
      sweep 1000000 [⟨"https://old.example/a", 0⟩] :=
  (c9_theorem 1000000 [⟨"https://old.example/a", 0⟩]
    ⟨"https://old.example/a", 0⟩ []).1 (by decide)

/-- Claim C10 (confirmed): every accepted record's `channel` is the
descriptor's channel label when that label is a non-empty string, and
`"general"` when the descriptor supplies no channel or an empty (falsy) one
(line 123, `site.channel || "general"`). -/
theorem c10_theorem (now : Int) (site : Site) (ae : ArticleEnv)
    (c : HeadlineCand) (db : Db) (r : ArticleRecord)
    (h : (processArticle now site ae c db).rec? = some r) :
    (∀ s, site.channel = some s → s ≠ "" → r.channel = s) ∧
    ((site.channel = none ∨ site.channel = some "") → r.channel = "general") := by
  have hch : r.channel = jsOrString site.channel "general" :=
    (processArticle_some now site ae c db r h).2.1
  constructor
  · intro s hs hne
    rw [hch, hs]
    simp [jsOrString, hne]
  · rintro (hs | hs) <;> rw [hch, hs] <;> simp [jsOrString]

/-- Claim C10, witness: a descriptor labelled `"sports"` yields records
channelled `"sports"`. -/
theorem c10_witness : c10Rec.channel = "sports" :=
  (c10_theorem 0 c10Site goodAE ⟨"https://w.example/x", "t"⟩ [] c10Rec rfl).1
    "sports" rfl (by decide)

end WebScraper
